import Mathlib

/-!
Shallow embedding of `src/weather/client.py` (`MCPStdIOClient`), the
JSON-RPC-over-stdio client: its mutable state, the correlation table
(`_pending`), id allocation (`_next_id`), message dispatch
(`_handle_message`), one reader-loop iteration (the body of
`_reader_loop`), request/notification sending (`_send_request`,
`_send_notification`), the lifecycle operations (`start`, `stop`) and
the tool-call wrapper (`call_tool`).

Python values decoded from JSON are modelled by the inductive `Json`;
Python dicts are association structures with unique keys and
first-match lookup.  Blocking I/O and the external child process are
modelled by oracle parameters: `writeErr` (outcome of the stdin
write in `_write_message`: `none` = success, `some e` = the write
raised with message `e`), `delivery` (the message obtained from the
per-request queue within the timeout window, `none` = `queue.Empty`)
and `decode` (the result of `json.loads` on a line, `none` =
`json.JSONDecodeError`).  A raised `MCPClientError` is modelled by
`PyOutcome.clientError` carrying the exception message; an uncaught
exception of another class (e.g. `AttributeError`) by
`PyOutcome.pyError`.
-/

namespace MCP

mutual

/-- A JSON-decoded Python value (`json.loads` output): `None`, `bool`,
integer, string, list, or dict.  Float literals occur in no message
this client builds or inspects, so numbers are modelled as integers. -/
inductive Json where
  | null
  | bool (b : Bool)
  | num (n : Int)
  | str (s : String)
  | arr (xs : Jlist)
  | obj (m : Jobj)

/-- A Python list of JSON values. -/
inductive Jlist where
  | nil
  | cons (hd : Json) (tl : Jlist)

/-- A Python dict of JSON values: an association structure with unique
keys, in insertion order. -/
inductive Jobj where
  | nil
  | cons (k : String) (v : Json) (tl : Jobj)

end

deriving instance DecidableEq for Json
deriving instance DecidableEq for Jlist
deriving instance DecidableEq for Jobj

/-- Python `d.get(key)` on a dict: the first binding of `key`, if any. -/
def Jobj.find : Jobj → String → Option Json
  | .nil, _ => none
  | .cons k v rest, key => if k = key then some v else Jobj.find rest key

mutual

/-- Python `repr` of a JSON-decoded value (which `str` delegates to on
containers): `None`/`True`/`False`, decimal integers, single-quoted
strings, bracketed lists, braced dicts. -/
def pyRepr : Json → String
  | Json.null => "None"
  | Json.bool true => "True"
  | Json.bool false => "False"
  | Json.num n => toString n
  | Json.str s => "\x27" ++ s ++ "\x27"
  | Json.arr xs => "[" ++ pyReprList xs ++ "]"
  | Json.obj m => "\x7b" ++ pyReprObj m ++ "\x7d"

/-- Comma-separated `repr`s of the elements of a list. -/
def pyReprList : Jlist → String
  | .nil => ""
  | .cons x .nil => pyRepr x
  | .cons x tl => pyRepr x ++ ", " ++ pyReprList tl

/-- Comma-separated `repr`s of the entries of a dict. -/
def pyReprObj : Jobj → String
  | .nil => ""
  | .cons k v .nil => "\x27" ++ k ++ "\x27: " ++ pyRepr v
  | .cons k v tl => "\x27" ++ k ++ "\x27: " ++ pyRepr v ++ ", " ++ pyReprObj tl

end

/-- Python `str()` of a JSON-decoded value (also the meaning of an
f-string interpolation such as `f"{v}"`): a string renders as itself,
any other value as its `repr`. -/
def pyStr : Json → String
  | Json.str s => s
  | v => pyRepr v

/-- First-match lookup in an association list, the model of
`self._pending.get(k)` (dict with integer keys). -/
def alookup {α β : Type} [DecidableEq α] : List (α × β) → α → Option β
  | [], _ => none
  | (k, v) :: rest, key => if k = key then some v else alookup rest key

/-- `d[k] = v` on a Python dict: replace the first binding of `k`, or
append a new binding when `k` is absent. -/
def aset {α β : Type} [DecidableEq α] : List (α × β) → α → β → List (α × β)
  | [], k, v => [(k, v)]
  | (k1, v1) :: rest, k, v =>
      if k1 = k then (k, v) :: rest else (k1, v1) :: aset rest k v

/-- `del d[k]` on a Python dict: drop the first binding of `k`. -/
def aerase {α β : Type} [DecidableEq α] : List (α × β) → α → List (α × β)
  | [], _ => []
  | (k1, v1) :: rest, k => if k1 = k then rest else (k1, v1) :: aerase rest k

/-- The single exception class `MCPClientError(Exception)` of
`client.py`, carrying its message string. -/
structure MCPClientError where
  message : String
  deriving DecidableEq

/-- Outcome of running a Python method: a returned value, a raised
`MCPClientError`, or an uncaught exception of another class (e.g. the
`AttributeError` from calling `.get` on a non-dict). -/
inductive PyOutcome where
  | ok (v : Json)
  | clientError (e : MCPClientError)
  | pyError
  deriving DecidableEq

/-- The child process handle (`subprocess.Popen`): all the client
inspects is liveness, `self.proc.poll() is not None` ↔ `exited`. -/
structure Proc where
  exited : Bool
  deriving DecidableEq

/-- The mutable state of an `MCPStdIOClient`: the process handle
`self.proc`, the id counter `self._id`, the correlation table
`self._pending` (each pending id mapped to the contents of its
delivery queue), the reader-loop flag `self._running`, and the lines
written through `self.logger`. -/
structure ClientState where
  proc : Option Proc
  idCtr : Int
  pending : List (Int × List Json)
  running : Bool
  log : List String
  deriving DecidableEq

/-- `not self.proc or self.proc.poll() is not None`: no live child. -/
def notRunning (s : ClientState) : Bool :=
  match s.proc with
  | none => true
  | some p => p.exited

/-- `_next_id`: increment `self._id` and return it. -/
def nextId (s : ClientState) : Int × ClientState :=
  (s.idCtr + 1, { s with idCtr := s.idCtr + 1 })

/-- The notification frame built by `_send_notification`:
`{"jsonrpc": "2.0", "method": method}` plus `params` only when the
`params` argument is not `None`. -/
def notificationFields (method : String) (params : Option Json) : Jobj :=
  Jobj.cons "jsonrpc" (Json.str "2.0") (Jobj.cons "method" (Json.str method)
    (match params with
     | none => Jobj.nil
     | some p => Jobj.cons "params" p Jobj.nil))

/-- The request frame built by `_send_request`:
`{"jsonrpc": "2.0", "method": method, "id": reqId}` plus `params` only
when the `params` argument is not `None`. -/
def requestFields (method : String) (params : Option Json) (reqId : Int) : Jobj :=
  Jobj.cons "jsonrpc" (Json.str "2.0") (Jobj.cons "method" (Json.str method)
    (Jobj.cons "id" (Json.num reqId)
      (match params with
       | none => Jobj.nil
       | some p => Jobj.cons "params" p Jobj.nil)))

/-- `_send_notification`: fail fast when no child is running, else
write the notification frame (no id, no pending entry).  Returns the
outcome and the frames written to the child stdin. -/
def sendNotification (s : ClientState) (method : String) (params : Option Json)
    (writeErr : Option String) : PyOutcome × List Jobj :=
  if notRunning s then
    (.clientError ⟨"MCP server is not running"⟩, [])
  else
    match writeErr with
    | some e => (.clientError ⟨"Failed to write to MCP server: " ++ e⟩, [])
    | none => (.ok Json.null, [notificationFields method params])

/-- The outcome of `_send_request` once the frame has been written:
`q.get(timeout=...)` either raises `queue.Empty` (`delivery = none`,
mapped to the timeout `MCPClientError`) or yields the delivered
message, a dict (the reader loop only enqueues dicts — see
`handleMessage`).  An `error` member raises an `MCPClientError`
carrying `f"{error.get('message', 'Unknown error')}"`; `error.get` on
a non-dict `error` member raises `AttributeError`; otherwise
`msg.get('result')` is returned. -/
def deliveredOutcome (method : String) (delivery : Option Jobj) : PyOutcome :=
  match delivery with
  | none => .clientError ⟨"Timeout waiting for response to " ++ method⟩
  | some msg =>
    match msg.find "error" with
    | some (Json.obj em) =>
        .clientError ⟨pyStr ((em.find "message").getD (Json.str "Unknown error"))⟩
    | some _ => .pyError
    | none => .ok ((msg.find "result").getD Json.null)

/-- `_send_request`: fail fast when no child is running; otherwise
allocate the next id, register a fresh queue under it, write the
frame, wait (`deliveredOutcome`), and in the `finally` block delete
the pending entry.  `writeErr = some e` models `_write_message`
raising (the wait never starts, the `finally` still runs).  Returns
the outcome, the state after the call, and the frames written. -/
def sendRequest (s : ClientState) (method : String) (params : Option Json)
    (writeErr : Option String) (delivery : Option Jobj) :
    PyOutcome × ClientState × List Jobj :=
  if notRunning s then
    (.clientError ⟨"MCP server is not running"⟩, s, [])
  else
    match writeErr with
    | some e =>
        (.clientError ⟨"Failed to write to MCP server: " ++ e⟩,
         { s with idCtr := s.idCtr + 1,
                  pending := aerase (aset s.pending (s.idCtr + 1) []) (s.idCtr + 1) },
         [])
    | none =>
        (deliveredOutcome method delivery,
         { s with idCtr := s.idCtr + 1,
                  pending := aerase (aset s.pending (s.idCtr + 1) []) (s.idCtr + 1) },
         [requestFields method params (s.idCtr + 1)])

/-- The warning logged by `_handle_message` for an id with no waiter:
`f"[MCP client] Received response for unknown id: {msg_id}"`. -/
def unknownIdWarning (idv : Json) : String :=
  "[MCP client] Received response for unknown id: " ++ pyStr idv

/-- The dict key an id value selects in `self._pending.get(msg_id)`:
the keys are the `int`s from `_next_id`, and in Python `True == 1`
and `False == 0`, so a boolean id hits those keys.  `none` for the
hashable values (`str`, `None` handled earlier) that can never equal
an `int` key. -/
def idKey : Json → Option Int
  | Json.num k => some k
  | Json.bool b => some (if b then 1 else 0)
  | _ => none

/-- Is the value usable as a dict key?  `list`/`dict` ids make
`self._pending.get(msg_id)` raise `TypeError: unhashable type`. -/
def jsonHashable : Json → Bool
  | Json.arr _ => false
  | Json.obj _ => false
  | _ => true

/-- `_handle_message`: on a dict with a non-`None` `id`, look the id up
in `_pending`; deliver the whole message to the registered queue, or
log a warning when no waiter exists.  A message with no (or `None`)
`id` is a notification and is ignored.  `none` models an uncaught
exception: `message.get` on a non-dict (`AttributeError`) or an
unhashable id (`TypeError`) — both occur before any mutation. -/
def handleMessage (s : ClientState) (message : Json) : Option ClientState :=
  match message with
  | Json.obj m =>
    match m.find "id" with
    | none => some s
    | some Json.null => some s
    | some idv =>
      if jsonHashable idv then
        match idKey idv with
        | some k =>
          match alookup s.pending k with
          | some q => some { s with pending := aset s.pending k (q ++ [Json.obj m]) }
          | none => some { s with log := s.log ++ [unknownIdWarning idv] }
        | none => some { s with log := s.log ++ [unknownIdWarning idv] }
      else none
  | _ => none

/-- An ASCII whitespace character, as stripped by Python `str.strip()`
(space, tab, newline, carriage return, vertical tab, form feed). -/
def isPySpace (c : Char) : Bool :=
  c = ' ' || c = '\t' || c = '\n' || c = '\r' || c = '\x0b' || c = '\x0c'

/-- Python `str.strip()`: drop leading and trailing whitespace. -/
def pyStrip (s : String) : String :=
  String.mk (((s.data.dropWhile isPySpace).reverse.dropWhile isPySpace).reverse)

/-- Python `text.startswith('[')`. -/
def headIsLbracket (s : String) : Bool :=
  match s.data with
  | [] => false
  | c :: _ => c = '['

/-- One iteration of the `_reader_loop` body on the line read from the
child stdout.  `decode` is the oracle for `json.loads`.  Returns the
state after the iteration and whether the loop continues (`false` =
`break`, or the outer handler catching `self.proc.poll()` on `None`).
An empty read checks child liveness; a decoded message is dispatched
with every `_handle_message` exception swallowed (`continue`); a line
that fails to decode is logged only when it does not start with `[`. -/
def readerStep (s : ClientState) (decode : String → Option Json) (line : String) :
    ClientState × Bool :=
  if line = "" then
    match s.proc with
    | none => (s, false)
    | some p => if p.exited then (s, false) else (s, true)
  else
    if pyStrip line = "" then (s, true)
    else
      match decode (pyStrip line) with
      | some msg => ((handleMessage s msg).getD s, true)
      | none =>
        if headIsLbracket (pyStrip line) then (s, true)
        else ({ s with log := s.log ++ ["[MCP server output] " ++ pyStrip line] }, true)

/-- `stop`: clear `self._running`; when a process exists, terminate or
kill it (exceptions swallowed) and clear the handle.  Either way the
final state has no process handle and a cleared running flag. -/
def stop (s : ClientState) : ClientState :=
  { s with running := false, proc := none }

/-- The `initialize` params built in `start`. -/
def initParams : Json :=
  Json.obj (Jobj.cons "protocolVersion" (Json.str "2024-11-05")
    (Jobj.cons "capabilities" (Json.obj Jobj.nil)
      (Jobj.cons "clientInfo"
        (Json.obj (Jobj.cons "name" (Json.str "python-mcp-client")
          (Jobj.cons "version" (Json.str "1.0.0") Jobj.nil))) Jobj.nil)))

/-- `start`: a no-op when a process handle already exists; otherwise
spawn the child (fresh live handle), set `self._running`, start the
background loops (no effect on the modelled state), and perform the
handshake: `_send_request("initialize", ...)` followed by the
`notifications/initialized` notification, with any `MCPClientError`
from either caught and discarded (`except MCPClientError: pass`).
The notification leaves the state unchanged, so only the request's
state survives.  `none` models an uncaught non-`MCPClientError`
exception escaping `start`. -/
def start (s : ClientState) (writeErr : Option String) (delivery : Option Jobj) :
    Option ClientState :=
  if s.proc.isSome then some s
  else
    match sendRequest { s with proc := some ⟨false⟩, running := true }
        "initialize" (some initParams) writeErr delivery with
    | (.pyError, _, _) => none
    | (.ok _, s2, _) => some s2
    | (.clientError _, s2, _) => some s2

/-- The params dict built by `call_tool`:
`{"name": tool_name, "arguments": arguments}`. -/
def toolCallParams (name : String) (arguments : Json) : Json :=
  Json.obj (Jobj.cons "name" (Json.str name)
    (Jobj.cons "arguments" arguments Jobj.nil))

/-- The unwrapping applied by `call_tool` to the request's result: a
dict with a `content` member that is a non-empty list yields the first
element's `text` member when that element is a dict carrying one, and
otherwise `str(first_item)`; every other shape returns the raw result
unchanged. -/
def unwrapToolResult (result : Json) : Json :=
  match result with
  | Json.obj m =>
    match m.find "content" with
    | some (Json.arr (Jlist.cons first _)) =>
        match first with
        | Json.obj fm => (fm.find "text").getD (Json.str (pyStr first))
        | _ => Json.str (pyStr first)
    | some _ => result
    | none => result
  | _ => result

/-- `call_tool`: issue `_send_request("tools/call", {name, arguments})`
and unwrap the result. -/
def call_tool (s : ClientState) (name : String) (arguments : Json)
    (writeErr : Option String) (delivery : Option Jobj) :
    PyOutcome × ClientState × List Jobj :=
  match sendRequest s "tools/call" (some (toolCallParams name arguments)) writeErr delivery with
  | (.ok r, s2, w) => (.ok (unwrapToolResult r), s2, w)
  | other => other

/-! ### Association-list helper lemmas -/

theorem alookup_aset_self {α β : Type} [DecidableEq α] (l : List (α × β)) (k : α) (v : β) :
    alookup (aset l k v) k = some v := by
  induction l with
  | nil => simp [aset, alookup]
  | cons hd tl ih =>
    obtain ⟨k1, v1⟩ := hd
    by_cases h : k1 = k
    · simp [aset, alookup, h]
    · simp [aset, alookup, h, ih]

theorem alookup_aset_ne {α β : Type} [DecidableEq α] (l : List (α × β)) (k j : α) (v : β)
    (h : j ≠ k) : alookup (aset l k v) j = alookup l j := by
  have hkj : ¬ k = j := fun hh => h hh.symm
  induction l with
  | nil => simp [aset, alookup, hkj]
  | cons hd tl ih =>
    obtain ⟨k1, v1⟩ := hd
    by_cases hk : k1 = k
    · subst hk
      simp [aset, alookup, hkj]
    · simp only [aset, if_neg hk, alookup]
      by_cases hj : k1 = j
      · simp [hj]
      · simp [hj, ih]

theorem alookup_aerase_ne {α β : Type} [DecidableEq α] (l : List (α × β)) (k j : α)
    (h : j ≠ k) : alookup (aerase l k) j = alookup l j := by
  have hkj : ¬ k = j := fun hh => h hh.symm
  induction l with
  | nil => simp [aerase]
  | cons hd tl ih =>
    obtain ⟨k1, v1⟩ := hd
    by_cases hk : k1 = k
    · subst hk
      simp [aerase, alookup, hkj]
    · simp only [aerase, if_neg hk, alookup]
      by_cases hj : k1 = j
      · simp [hj]
      · simp [hj, ih]

theorem alookup_eq_none_of_not_mem {α β : Type} [DecidableEq α] (l : List (α × β)) (k : α)
    (h : k ∉ l.map Prod.fst) : alookup l k = none := by
  induction l with
  | nil => rfl
  | cons hd tl ih =>
    obtain ⟨k1, v1⟩ := hd
    simp only [List.map, List.mem_cons, not_or] at h
    have h1 : ¬ k1 = k := fun hh => h.1 hh.symm
    simp [alookup, h1, ih h.2]

theorem alookup_aerase_self {α β : Type} [DecidableEq α] (l : List (α × β)) (k : α)
    (hnd : (l.map Prod.fst).Nodup) : alookup (aerase l k) k = none := by
  induction l with
  | nil => rfl
  | cons hd tl ih =>
    obtain ⟨k1, v1⟩ := hd
    simp only [List.map, List.nodup_cons] at hnd
    by_cases hk : k1 = k
    · subst hk
      simp only [aerase, if_pos rfl]
      exact alookup_eq_none_of_not_mem tl k1 hnd.1
    · simp [aerase, hk, alookup, ih hnd.2]

theorem mem_aset_map_fst {α β : Type} [DecidableEq α] (l : List (α × β)) (k j : α) (v : β) :
    j ∈ (aset l k v).map Prod.fst ↔ j = k ∨ j ∈ l.map Prod.fst := by
  induction l with
  | nil => simp [aset]
  | cons hd tl ih =>
    obtain ⟨k1, v1⟩ := hd
    by_cases hk : k1 = k
    · subst hk
      simp [aset]
    · simp only [aset, if_neg hk, List.map, List.mem_cons, ih]
      tauto

theorem aset_map_fst_nodup {α β : Type} [DecidableEq α] (l : List (α × β)) (k : α) (v : β)
    (hnd : (l.map Prod.fst).Nodup) : ((aset l k v).map Prod.fst).Nodup := by
  induction l with
  | nil => simp [aset]
  | cons hd tl ih =>
    obtain ⟨k1, v1⟩ := hd
    simp only [List.map, List.nodup_cons] at hnd
    by_cases hk : k1 = k
    · subst hk
      simp only [aset, if_pos rfl, List.map, List.nodup_cons]
      exact ⟨hnd.1, hnd.2⟩
    · simp only [aset, if_neg hk, List.map, List.nodup_cons]
      refine ⟨fun hmem => ?_, ih hnd.2⟩
      rcases (mem_aset_map_fst tl k k1 v).mp hmem with h1 | h1
      · exact hk h1
      · exact hnd.1 h1

/-- `_send_request` touches only the id counter and the pending table:
the process handle, running flag and log are unchanged. -/
theorem sendRequest_frame_fields (s : ClientState) (method : String) (params : Option Json)
    (writeErr : Option String) (delivery : Option Jobj) :
    (sendRequest s method params writeErr delivery).2.1.proc = s.proc ∧
    (sendRequest s method params writeErr delivery).2.1.running = s.running ∧
    (sendRequest s method params writeErr delivery).2.1.log = s.log := by
  by_cases h : notRunning s
  · simp [sendRequest, h]
  · cases writeErr <;> simp [sendRequest, h]

/-- After a successful registration in `_send_request` (live child),
the state's pending table is register-then-finally-delete at the
fresh id, and the counter moved up by one. -/
theorem sendRequest_state (s : ClientState) (method : String) (params : Option Json)
    (writeErr : Option String) (delivery : Option Jobj)
    (hrun : notRunning s = false) :
    (sendRequest s method params writeErr delivery).2.1.pending =
      aerase (aset s.pending (s.idCtr + 1) []) (s.idCtr + 1) ∧
    (sendRequest s method params writeErr delivery).2.1.idCtr = s.idCtr + 1 := by
  cases writeErr <;> simp [sendRequest, hrun]

/-! ### Claim theorems -/

/-- Claim C1: a response message carrying id `i` is delivered by
`_handle_message` only to the queue registered under `i`; the queue
registered by any other caller `j ≠ i` is left untouched (no
cross-delivery). -/
theorem handleMessage_no_cross_delivery
    (s : ClientState) (m : Jobj) (i j : Int) (qi qj : List Json)
    (hne : i ≠ j)
    (hid : m.find "id" = some (Json.num i))
    (hqi : alookup s.pending i = some qi)
    (hqj : alookup s.pending j = some qj) :
    handleMessage s (Json.obj m) =
      some { s with pending := aset s.pending i (qi ++ [Json.obj m]) } ∧
    alookup (aset s.pending i (qi ++ [Json.obj m])) j = some qj ∧
    alookup (aset s.pending i (qi ++ [Json.obj m])) i = some (qi ++ [Json.obj m]) := by
  refine ⟨?_, ?_, alookup_aset_self _ _ _⟩
  · simp [handleMessage, hid, jsonHashable, idKey, hqi]
  · rw [alookup_aset_ne _ _ _ _ (Ne.symm hne)]
    exact hqj

/-- Witness for C1 at a concrete state with two outstanding requests. -/
theorem handleMessage_no_cross_delivery_witness :
    alookup (aset ([(1, []), (2, [])] :
        List (Int × List Json)) 1
        ([] ++ [Json.obj (Jobj.cons "id" (Json.num 1)
          (Jobj.cons "result" (Json.str "pong") Jobj.nil))])) 2 = some [] :=
  (handleMessage_no_cross_delivery
    { proc := some ⟨false⟩, idCtr := 2, pending := [(1, []), (2, [])],
      running := true, log := [] }
    (Jobj.cons "id" (Json.num 1) (Jobj.cons "result" (Json.str "pong") Jobj.nil))
    1 2 [] [] (by decide) (by decide) (by decide) (by decide)).2.1

/-- Claim C3: when no matching response is delivered within the
timeout window, `_send_request` raises the timeout `MCPClientError`
and its `finally` block evicts the pending id; a response for that
now-evicted id then merely logs a warning in `_handle_message` —
nothing is delivered to any queue and no exception is raised. -/
theorem timeout_evicts_and_discards_late_response
    (s : ClientState) (method : String) (params : Option Json) (m : Jobj)
    (hrun : notRunning s = false)
    (hnd : (s.pending.map Prod.fst).Nodup)
    (hid : m.find "id" = some (Json.num (s.idCtr + 1))) :
    (sendRequest s method params none none).1 =
      .clientError ⟨"Timeout waiting for response to " ++ method⟩ ∧
    alookup (sendRequest s method params none none).2.1.pending (s.idCtr + 1) = none ∧
    handleMessage (sendRequest s method params none none).2.1 (Json.obj m) =
      some { (sendRequest s method params none none).2.1 with
             log := (sendRequest s method params none none).2.1.log ++
               [unknownIdWarning (Json.num (s.idCtr + 1))] } := by
  have hpend : (sendRequest s method params none none).2.1.pending =
      aerase (aset s.pending (s.idCtr + 1) []) (s.idCtr + 1) :=
    (sendRequest_state s method params none none hrun).1
  have hgone : alookup (sendRequest s method params none none).2.1.pending (s.idCtr + 1) = none := by
    rw [hpend]
    exact alookup_aerase_self _ _ (aset_map_fst_nodup _ _ _ hnd)
  refine ⟨by simp [sendRequest, hrun, deliveredOutcome], hgone, ?_⟩
  simp [handleMessage, hid, jsonHashable, idKey, hgone]

/-- Witness for C3 at a concrete running state. -/
theorem timeout_evicts_and_discards_late_response_witness :
    (sendRequest { proc := some ⟨false⟩, idCtr := 0, pending := [], running := true, log := [] }
        "get_forecast" none none none).1 =
      .clientError ⟨"Timeout waiting for response to " ++ "get_forecast"⟩ :=
  (timeout_evicts_and_discards_late_response
    { proc := some ⟨false⟩, idCtr := 0, pending := [], running := true, log := [] }
    "get_forecast" none (Jobj.cons "id" (Json.num 1) Jobj.nil)
    (by decide) (by decide) (by decide)).1

/-- Claim C4: when a response is delivered before the timeout,
`_send_request` raises a `MCPClientError` exactly when the response
has an `error` member; a well-formed `error` object with a string
`message` surfaces that message verbatim, and otherwise the
response's `result` member is returned (the wire format of §6
guarantees an `error` member is an object). -/
theorem request_error_iff_error_member
    (s : ClientState) (method : String) (params : Option Json) (msg : Jobj)
    (hrun : notRunning s = false)
    (hwf : ∀ e, msg.find "error" = some e → ∃ em, e = Json.obj em) :
    ((∃ e, (sendRequest s method params none (some msg)).1 = .clientError e) ↔
      (∃ v, msg.find "error" = some v)) ∧
    (∀ em t, msg.find "error" = some (Json.obj em) → em.find "message" = some (Json.str t) →
      (sendRequest s method params none (some msg)).1 = .clientError ⟨t⟩) ∧
    (msg.find "error" = none →
      (sendRequest s method params none (some msg)).1 =
        .ok ((msg.find "result").getD Json.null)) := by
  have hout : (sendRequest s method params none (some msg)).1 =
      deliveredOutcome method (some msg) := by
    simp [sendRequest, hrun]
  rw [hout]
  refine ⟨⟨?_, ?_⟩, ?_, ?_⟩
  · rintro ⟨e, he⟩
    rcases hfe : msg.find "error" with _ | v
    · simp [deliveredOutcome, hfe] at he
    · exact ⟨v, rfl⟩
  · rintro ⟨v, hv⟩
    obtain ⟨em, rfl⟩ := hwf v hv
    exact ⟨⟨pyStr ((em.find "message").getD (Json.str "Unknown error"))⟩,
      by simp [deliveredOutcome, hv]⟩
  · intro em t h1 h2
    simp [deliveredOutcome, h1, h2, pyStr]
  · intro h1
    simp [deliveredOutcome, h1]

/-- Witness for C4: end-to-end scenario B, a response carrying
`{"error": {"message": "bad thing"}}` surfaces `"bad thing"`. -/
theorem request_error_iff_error_member_witness :
    (sendRequest { proc := some ⟨false⟩, idCtr := 0, pending := [], running := true, log := [] }
        "boom" none none
        (some (Jobj.cons "id" (Json.num 1)
          (Jobj.cons "error" (Json.obj (Jobj.cons "message" (Json.str "bad thing") Jobj.nil))
            Jobj.nil)))).1 = .clientError ⟨"bad thing"⟩ :=
  (request_error_iff_error_member
    { proc := some ⟨false⟩, idCtr := 0, pending := [], running := true, log := [] }
    "boom" none
    (Jobj.cons "id" (Json.num 1)
      (Jobj.cons "error" (Json.obj (Jobj.cons "message" (Json.str "bad thing") Jobj.nil))
        Jobj.nil))
    (by decide)
    (fun e he => ⟨Jobj.cons "message" (Json.str "bad thing") Jobj.nil,
      (Option.some.inj he).symm⟩)).2.1
    (Jobj.cons "message" (Json.str "bad thing") Jobj.nil) "bad thing" (by decide) (by decide)

/-- Claim C5: `_next_id` allocates from a monotonically increasing
counter, so under the invariant that every pending id is at most the
counter (and the counter is non-negative, as initially), the freshly
allocated id is a positive integer strictly above the counter's old
value, absent from the correlation table, and registering it
preserves both the uniqueness of pending ids (at most one
`PendingRequest` per id) and the bounding invariant. -/
theorem fresh_id_allocation
    (s : ClientState)
    (hnd : (s.pending.map Prod.fst).Nodup)
    (hbound : ∀ k ∈ s.pending.map Prod.fst, k ≤ s.idCtr)
    (hpos : 0 ≤ s.idCtr) :
    (nextId s).1 = s.idCtr + 1 ∧
    0 < (nextId s).1 ∧
    s.idCtr < (nextId s).1 ∧
    (nextId s).2.idCtr = (nextId s).1 ∧
    alookup s.pending (nextId s).1 = none ∧
    ((aset s.pending (nextId s).1 ([] : List Json)).map Prod.fst).Nodup ∧
    (∀ k ∈ (aset s.pending (nextId s).1 ([] : List Json)).map Prod.fst,
      k ≤ (nextId s).2.idCtr) := by
  have hfresh : (s.idCtr + 1) ∉ s.pending.map Prod.fst := fun hmem =>
    absurd (hbound _ hmem) (by omega)
  refine ⟨rfl, by simp only [nextId]; omega, by simp only [nextId]; omega, rfl,
    alookup_eq_none_of_not_mem _ _ hfresh,
    aset_map_fst_nodup _ _ _ hnd, ?_⟩
  intro k hk
  rcases (mem_aset_map_fst _ _ _ _).mp hk with h | h
  · rw [h]
    simp only [nextId]
    omega
  · have := hbound k h
    simp only [nextId]
    omega

/-- Witness for C5 at a concrete state with one outstanding request. -/
theorem fresh_id_allocation_witness :
    alookup ([(1, [])] : List (Int × List Json))
      (nextId { proc := some ⟨false⟩, idCtr := 1, pending := [(1, [])],
                running := true, log := [] }).1 = none :=
  (fresh_id_allocation
    { proc := some ⟨false⟩, idCtr := 1, pending := [(1, [])], running := true, log := [] }
    (by decide) (by decide) (by decide)).2.2.2.2.1

/-- Claim C7: with no live child process, `_send_request` raises the
`MCPClientError` immediately: the state is returned unchanged (no id
allocated, no `PendingRequest` registered) and no frame is written to
the child stdin. -/
theorem sendRequest_fails_fast_when_not_running
    (s : ClientState) (method : String) (params : Option Json)
    (writeErr : Option String) (delivery : Option Jobj)
    (h : notRunning s = true) :
    (sendRequest s method params writeErr delivery).1 =
      .clientError ⟨"MCP server is not running"⟩ ∧
    (sendRequest s method params writeErr delivery).2.1 = s ∧
    (sendRequest s method params writeErr delivery).2.2 = [] := by
  simp [sendRequest, h]

/-- Witness for C7 at a concrete stopped state. -/
theorem sendRequest_fails_fast_when_not_running_witness :
    (sendRequest { proc := none, idCtr := 5, pending := [], running := false, log := [] }
        "tools/call" none none none).1 =
      .clientError ⟨"MCP server is not running"⟩ ∧
    (sendRequest { proc := none, idCtr := 5, pending := [], running := false, log := [] }
        "tools/call" none none none).2.1 =
      { proc := none, idCtr := 5, pending := [], running := false, log := [] } ∧
    (sendRequest { proc := none, idCtr := 5, pending := [], running := false, log := [] }
        "tools/call" none none none).2.2 = [] :=
  sendRequest_fails_fast_when_not_running
    { proc := none, idCtr := 5, pending := [], running := false, log := [] }
    "tools/call" none none none (by decide)

/-- Claim C9: `stop` is idempotent — a second call changes nothing and
produces no error — it always leaves the not-running state (process
handle cleared, running flag false), and calling it in the
not-running state is a no-op. -/
theorem stop_idempotent_and_noop (s : ClientState) :
    stop (stop s) = stop s ∧
    (stop s).proc = none ∧
    (stop s).running = false ∧
    (s.proc = none → s.running = false → stop s = s) := by
  refine ⟨rfl, rfl, rfl, fun h1 h2 => ?_⟩
  obtain ⟨p, i, pd, r, lg⟩ := s
  simp only at h1 h2
  simp [stop, h1, h2]

/-- Witness for C9: `stop` on a concrete not-running state. -/
theorem stop_idempotent_and_noop_witness :
    stop { proc := none, idCtr := 3, pending := [], running := false, log := [] } =
      { proc := none, idCtr := 3, pending := [], running := false, log := [] } :=
  (stop_idempotent_and_noop
    { proc := none, idCtr := 3, pending := [], running := false, log := [] }).2.2.2 rfl rfl

/-- Claim C10: the frames emitted by `_send_request` and
`_send_notification` omit the `params` key entirely when the `params`
argument is `None` (it is not sent as a null member), include it when
non-`None`, and always carry `jsonrpc = "2.0"` and the method name;
these are exactly the frames written to the child stdin. -/
theorem emitted_frame_params_member
    (s : ClientState) (method : String) (p : Json) (reqId : Int) (delivery : Option Jobj)
    (hrun : notRunning s = false) :
    (notificationFields method none).find "params" = none ∧
    (requestFields method none reqId).find "params" = none ∧
    (notificationFields method (some p)).find "params" = some p ∧
    (requestFields method (some p) reqId).find "params" = some p ∧
    (notificationFields method none).find "jsonrpc" = some (Json.str "2.0") ∧
    (notificationFields method (some p)).find "jsonrpc" = some (Json.str "2.0") ∧
    (requestFields method none reqId).find "jsonrpc" = some (Json.str "2.0") ∧
    (requestFields method (some p) reqId).find "jsonrpc" = some (Json.str "2.0") ∧
    (notificationFields method none).find "method" = some (Json.str method) ∧
    (notificationFields method (some p)).find "method" = some (Json.str method) ∧
    (requestFields method none reqId).find "method" = some (Json.str method) ∧
    (requestFields method (some p) reqId).find "method" = some (Json.str method) ∧
    (∀ params, (sendNotification s method params none).2 =
      [notificationFields method params]) ∧
    (∀ params, (sendRequest s method params none delivery).2.2 =
      [requestFields method params (s.idCtr + 1)]) := by
  refine ⟨?_, ?_, ?_, ?_, ?_, ?_, ?_, ?_, ?_, ?_, ?_, ?_, ?_, ?_⟩ <;>
    first
      | (intro params
         simp [sendNotification, sendRequest, hrun])
      | simp [notificationFields, requestFields, Jobj.find]

/-- Witness for C10 at a concrete running state. -/
theorem emitted_frame_params_member_witness :
    (notificationFields "notifications/initialized" none).find "params" = none ∧
    (requestFields "ping" none 1).find "params" = none :=
  ⟨(emitted_frame_params_member
      { proc := some ⟨false⟩, idCtr := 0, pending := [], running := true, log := [] }
      "notifications/initialized" Json.null 1 none (by decide)).1,
   (emitted_frame_params_member
      { proc := some ⟨false⟩, idCtr := 0, pending := [], running := true, log := [] }
      "ping" Json.null 1 none (by decide)).2.1⟩

/-- Counterexample to claim C2 as stated: for the result
`{"content": [{}]}` — a mapping whose `content` is a non-empty list
whose first element carries no `text` field — `call_tool` does not
return the raw result unchanged; it returns `str(first_item)`, the
string `"{}"`. -/
theorem call_tool_not_raw_on_textless_content
    : (call_tool { proc := some ⟨false⟩, idCtr := 0, pending := [], running := true, log := [] }
        "echo" (Json.obj Jobj.nil) none
        (some (Jobj.cons "id" (Json.num 1)
          (Jobj.cons "result" (Json.obj (Jobj.cons "content"
            (Json.arr (Jlist.cons (Json.obj Jobj.nil) Jlist.nil)) Jobj.nil)) Jobj.nil)))).1
      = .ok (Json.str "\x7b\x7d") ∧
    Json.str "\x7b\x7d" ≠
      Json.obj (Jobj.cons "content"
        (Json.arr (Jlist.cons (Json.obj Jobj.nil) Jlist.nil)) Jobj.nil) := by
  decide

/-- Claim C2 (amended): `call_tool(name, arguments)` issues
`request("tools/call", {name, arguments})`; when the result is a
mapping whose `content` member is a non-empty list, it returns the
first element's `text` member if that element is a mapping carrying
one, and otherwise the `str()` rendering of that first element; the
raw result is returned unchanged exactly when the result is not a
mapping, lacks a `content` member, or `content` is not a non-empty
list. -/
theorem call_tool_request_and_unwrap
    (s : ClientState) (name : String) (arguments : Json) (msg : Jobj) (r : Json)
    (hrun : notRunning s = false)
    (herr : msg.find "error" = none)
    (hres : msg.find "result" = some r) :
    (call_tool s name arguments none (some msg)).2.2 =
      [requestFields "tools/call" (some (toolCallParams name arguments)) (s.idCtr + 1)] ∧
    (∀ fm f0 tl t, r = Json.obj fm →
       fm.find "content" = some (Json.arr (Jlist.cons (Json.obj f0) tl)) →
       f0.find "text" = some t →
       (call_tool s name arguments none (some msg)).1 = .ok t) ∧
    (∀ fm f0 tl, r = Json.obj fm →
       fm.find "content" = some (Json.arr (Jlist.cons f0 tl)) →
       (∀ gm, f0 = Json.obj gm → gm.find "text" = none) →
       (call_tool s name arguments none (some msg)).1 = .ok (Json.str (pyStr f0))) ∧
    (∀ fm, r = Json.obj fm →
       (∀ c, fm.find "content" = some c → ∀ x tl, c ≠ Json.arr (Jlist.cons x tl)) →
       (call_tool s name arguments none (some msg)).1 = .ok r) ∧
    ((∀ fm, r ≠ Json.obj fm) →
       (call_tool s name arguments none (some msg)).1 = .ok r) := by
  have hreq : sendRequest s "tools/call" (some (toolCallParams name arguments)) none (some msg) =
      (.ok r,
       { s with idCtr := s.idCtr + 1,
                pending := aerase (aset s.pending (s.idCtr + 1) []) (s.idCtr + 1) },
       [requestFields "tools/call" (some (toolCallParams name arguments)) (s.idCtr + 1)]) := by
    simp [sendRequest, hrun, deliveredOutcome, herr, hres]
  have hct : call_tool s name arguments none (some msg) =
      (.ok (unwrapToolResult r),
       { s with idCtr := s.idCtr + 1,
                pending := aerase (aset s.pending (s.idCtr + 1) []) (s.idCtr + 1) },
       [requestFields "tools/call" (some (toolCallParams name arguments)) (s.idCtr + 1)]) := by
    rw [call_tool, hreq]
  rw [hct]
  refine ⟨rfl, ?_, ?_, ?_, ?_⟩
  · intro fm f0 tl t hr hcont htext
    subst hr
    simp [unwrapToolResult, hcont, htext]
  · intro fm f0 tl hr hcont hnotext
    subst hr
    cases f0 with
    | obj gm => simp [unwrapToolResult, hcont, hnotext gm rfl]
    | null => simp [unwrapToolResult, hcont]
    | bool b => simp [unwrapToolResult, hcont]
    | num n => simp [unwrapToolResult, hcont]
    | str t => simp [unwrapToolResult, hcont]
    | arr xs => simp [unwrapToolResult, hcont]
  · intro fm hr hshape
    subst hr
    rcases hc : Jobj.find fm "content" with _ | c
    · simp [unwrapToolResult, hc]
    · cases c with
      | arr xs =>
        cases xs with
        | nil => simp [unwrapToolResult, hc]
        | cons x tl => exact absurd rfl (hshape _ hc x tl)
      | null => simp [unwrapToolResult, hc]
      | bool b => simp [unwrapToolResult, hc]
      | num n => simp [unwrapToolResult, hc]
      | str t => simp [unwrapToolResult, hc]
      | obj mm => simp [unwrapToolResult, hc]
  · intro hnotobj
    cases r with
    | obj m => exact absurd rfl (hnotobj m)
    | null => simp [unwrapToolResult]
    | bool b => simp [unwrapToolResult]
    | num n => simp [unwrapToolResult]
    | str t => simp [unwrapToolResult]
    | arr xs => simp [unwrapToolResult]

/-- Witness for C2 (amended): end-to-end scenario C —
`call_tool("echo", {"x": 1})` against `{"content": [{"text": "ok"}]}`
unwraps to `"ok"`. -/
theorem call_tool_request_and_unwrap_witness :
    (call_tool { proc := some ⟨false⟩, idCtr := 0, pending := [], running := true, log := [] }
        "echo" (Json.obj (Jobj.cons "x" (Json.num 1) Jobj.nil)) none
        (some (Jobj.cons "id" (Json.num 1)
          (Jobj.cons "result" (Json.obj (Jobj.cons "content"
            (Json.arr (Jlist.cons (Json.obj (Jobj.cons "text" (Json.str "ok") Jobj.nil))
              Jlist.nil)) Jobj.nil)) Jobj.nil)))).1 = .ok (Json.str "ok") :=
  (call_tool_request_and_unwrap
    { proc := some ⟨false⟩, idCtr := 0, pending := [], running := true, log := [] }
    "echo" (Json.obj (Jobj.cons "x" (Json.num 1) Jobj.nil))
    (Jobj.cons "id" (Json.num 1)
      (Jobj.cons "result" (Json.obj (Jobj.cons "content"
        (Json.arr (Jlist.cons (Json.obj (Jobj.cons "text" (Json.str "ok") Jobj.nil))
          Jlist.nil)) Jobj.nil)) Jobj.nil))
    (Json.obj (Jobj.cons "content"
      (Json.arr (Jlist.cons (Json.obj (Jobj.cons "text" (Json.str "ok") Jobj.nil))
        Jlist.nil)) Jobj.nil))
    (by decide) (by decide) (by decide)).2.1
    (Jobj.cons "content"
      (Json.arr (Jlist.cons (Json.obj (Jobj.cons "text" (Json.str "ok") Jobj.nil))
        Jlist.nil)) Jobj.nil)
    (Jobj.cons "text" (Json.str "ok") Jobj.nil) Jlist.nil (Json.str "ok")
    rfl (by decide) (by decide)

/-- Counterexample to claim C6 as stated: at a concrete fresh client,
the `initialize` handshake times out — a client-level error — yet
`start` logs nothing: the resulting log is empty, so the failure is
not logged (the `except MCPClientError: pass` swallows it silently).
`start` does return normally with a live handle. -/
theorem start_handshake_failure_not_logged
    : (sendRequest { proc := some ⟨false⟩, idCtr := 0, pending := [], running := true, log := [] }
        "initialize" (some initParams) none none).1 =
      .clientError ⟨"Timeout waiting for response to initialize"⟩ ∧
    start { proc := none, idCtr := 0, pending := [], running := false, log := [] } none none =
      some { proc := some ⟨false⟩, idCtr := 1, pending := [], running := true, log := [] } := by
  decide

/-- Claim C6 (amended): if the initialize handshake fails with a
client-level error, `start` does not abort: the failure is silently
swallowed (nothing is logged), `start` returns normally, and the
Connection remains usable for subsequent best-effort calls (live
process handle, running flag set). -/
theorem start_survives_handshake_failure
    (s : ClientState) (writeErr : Option String) (delivery : Option Jobj) (e : MCPClientError)
    (hnew : s.proc = none)
    (hfail : (sendRequest { s with proc := some ⟨false⟩, running := true }
        "initialize" (some initParams) writeErr delivery).1 = .clientError e) :
    ∃ s2, start s writeErr delivery = some s2 ∧
      s2.proc = some ⟨false⟩ ∧ s2.running = true ∧ notRunning s2 = false ∧
      s2.log = s.log := by
  have hfields := sendRequest_frame_fields { s with proc := some ⟨false⟩, running := true }
    "initialize" (some initParams) writeErr delivery
  have hsplit : sendRequest { s with proc := some ⟨false⟩, running := true }
      "initialize" (some initParams) writeErr delivery =
      (PyOutcome.clientError e,
       (sendRequest { s with proc := some ⟨false⟩, running := true }
         "initialize" (some initParams) writeErr delivery).2.1,
       (sendRequest { s with proc := some ⟨false⟩, running := true }
         "initialize" (some initParams) writeErr delivery).2.2) := by
    rw [← hfail]
  refine ⟨(sendRequest { s with proc := some ⟨false⟩, running := true }
    "initialize" (some initParams) writeErr delivery).2.1, ?_, ?_, ?_, ?_, ?_⟩
  · rw [start, if_neg (by simp [hnew]), hsplit]
  · rw [hfields.1]
  · rw [hfields.2.1]
  · rw [notRunning, hfields.1]
  · rw [hfields.2.2]

/-- Witness for C6 (amended) at a concrete fresh client whose
handshake write fails (dead pipe). -/
theorem start_survives_handshake_failure_witness :
    ∃ s2, start { proc := none, idCtr := 4, pending := [], running := false, log := [] }
        (some "Broken pipe") none = some s2 ∧
      s2.proc = some ⟨false⟩ ∧ s2.running = true ∧ notRunning s2 = false ∧
      s2.log = ({ proc := none, idCtr := 4, pending := [], running := false,
                  log := [] } : ClientState).log :=
  start_survives_handshake_failure
    { proc := none, idCtr := 4, pending := [], running := false, log := [] }
    (some "Broken pipe") none
    ⟨"Failed to write to MCP server: " ++ "Broken pipe"⟩ rfl (by decide)

/-- Counterexample to claim C8 as stated: the non-JSON line `"[oops"`
(a line `json.loads` rejects) is not forwarded to the logging path —
because it starts with `[`, the reader-loop iteration drops it
silently, leaving the state (log included) unchanged. -/
theorem reader_bracket_line_not_logged
    : readerStep { proc := some ⟨false⟩, idCtr := 0, pending := [], running := true, log := [] }
        (fun _ => none) "[oops" =
      ({ proc := some ⟨false⟩, idCtr := 0, pending := [], running := true, log := [] }, true) := by
  decide

/-- Claim C8 (amended): a line from the child stdout that fails to
decode as JSON never terminates the reader loop, is never delivered
to any pending caller, raises no protocol error, and leaves the rest
of the state unchanged; it is forwarded to the logging path as
informational output exactly when it does not start with `[` — a
non-JSON line starting with `[` is dropped silently. -/
theorem reader_malformed_line_resilience
    (s : ClientState) (decode : String → Option Json) (line : String)
    (hne : pyStrip line ≠ "")
    (hfail : decode (pyStrip line) = none) :
    (readerStep s decode line).2 = true ∧
    (readerStep s decode line).1.pending = s.pending ∧
    (readerStep s decode line).1.proc = s.proc ∧
    (readerStep s decode line).1.idCtr = s.idCtr ∧
    (readerStep s decode line).1.running = s.running ∧
    (readerStep s decode line).1.log =
      (if headIsLbracket (pyStrip line) then s.log
       else s.log ++ ["[MCP server output] " ++ pyStrip line]) := by
  have hline : ¬ line = "" := by
    intro h
    apply hne
    rw [h]
    rfl
  by_cases hb : headIsLbracket (pyStrip line) <;>
    simp [readerStep, hline, hne, hfail, hb]

/-- Witness for C8 (amended): the non-JSON line `"oops"` is logged as
server output and the loop continues. -/
theorem reader_malformed_line_resilience_witness :
    (readerStep { proc := some ⟨false⟩, idCtr := 0, pending := [(1, [])], running := true,
                  log := [] } (fun _ => none) "oops").1.log =
      (if headIsLbracket (pyStrip "oops")
       then ({ proc := some ⟨false⟩, idCtr := 0, pending := [(1, [])], running := true,
               log := [] } : ClientState).log
       else ({ proc := some ⟨false⟩, idCtr := 0, pending := [(1, [])], running := true,
               log := [] } : ClientState).log ++ ["[MCP server output] " ++ pyStrip "oops"]) :=
  (reader_malformed_line_resilience
    { proc := some ⟨false⟩, idCtr := 0, pending := [(1, [])], running := true, log := [] }
    (fun _ => none) "oops" (by decide) rfl).2.2.2.2.2

end MCP
